import Mathlib

/-!
Shallow embedding of the email-campaign core of `src/app.py` (a Flask +
Firestore waitlist application).

Modelling conventions:
* the Firestore `waitlist_users` collection is a `List UserRec` (document
  order = iteration order of the queries in the code);
* one `email_campaigns` document is a `Campaign`;
* Python dict fields that may be missing (`recipient.get(...)`) are `Option`;
* `datetime.now()` is an explicit `now : Nat` parameter;
* the SMTP layer's external outcomes (connection/login success, each
  `server.send_message` call's success, `server.quit` success) are Boolean
  oracles collected in `SMTPEnv`; an exception raised by the corresponding
  Python call is the `false` value of its oracle.
-/

/-- One document of the `waitlist_users` collection, as created by `signup`
and consumed by `send_campaign` / `send_email_campaign` in `src/app.py`. -/
structure UserRec where
  email : String
  name : Option String
  company : Option String
  role : Option String
  status : String
  notes : String
  deriving DecidableEq

/-- One document of the `email_campaigns` collection (`src/app.py`,
`save_email` / `send_campaign`). -/
structure Campaign where
  subject : String
  content : String
  status : String
  createdAt : Nat
  sentAt : Option Nat
  recipientsCount : Nat
  deriving DecidableEq

/-- The persistent state touched by one dispatch: the user collection and the
campaign document being dispatched. -/
structure Store where
  users : List UserRec
  campaign : Campaign
  deriving DecidableEq

/-- External SMTP outcomes for one call of `send_email_campaign`
(`src/app.py` lines 45–102).  `hasCreds` is `SMTP_USERNAME and SMTP_PASSWORD`
both configured; `setupOk` is success of `SMTP(...)`/`starttls()`/`login(...)`;
`sendOk r` is success of `server.send_message` for recipient `r`;
`quitOk` is success of `server.quit()`. -/
structure SMTPEnv where
  hasCreds : Bool
  setupOk : Bool
  sendOk : UserRec → Bool
  quitOk : Bool

/-- Python `str.replace` on `List Char`: scans left to right, replaces each
non-overlapping occurrence of `pat`, skips past a match.  The extra `Nat`
argument counts characters still to copy verbatim because they belong to a
match already replaced.  (For `pat = []` this is the identity, a case no call
site exercises: every placeholder is non-empty.) -/
def pyReplaceAux (pat rep : List Char) : List Char → Nat → List Char
  | [], _ => []
  | _ :: rest, skip + 1 => pyReplaceAux pat rep rest skip
  | c :: rest, 0 =>
    if pat.isPrefixOf (c :: rest) ∧ pat ≠ [] then
      rep ++ pyReplaceAux pat rep rest (pat.length - 1)
    else
      c :: pyReplaceAux pat rep rest 0

/-- `s.replace(pat, rep)` as used in the personalization block of
`send_email_campaign` (`src/app.py` lines 72–76). -/
def pyReplace (s pat rep : List Char) : List Char :=
  pyReplaceAux pat rep s 0

/-- The personalization block of `send_email_campaign` (`src/app.py` lines
72–76): four sequential `str.replace` calls on the evolving string.
`recipient.get('name', 'there')` defaults an absent name to `"there"`;
absent company and role default to the empty string; `recipient['email']`
is mandatory. -/
def personalized_content (content : List Char) (r : UserRec) : List Char :=
  let c1 := pyReplace content "\x7b\x7bname\x7d\x7d".toList (r.name.getD "there").toList
  let c2 := pyReplace c1 "\x7b\x7bemail\x7d\x7d".toList r.email.toList
  let c3 := pyReplace c2 "\x7b\x7bcompany\x7d\x7d".toList (r.company.getD "").toList
  pyReplace c3 "\x7b\x7brole\x7d\x7d".toList (r.role.getD "").toList

/-- The per-recipient loop of `send_email_campaign` (`src/app.py` lines
69–94): each recipient whose `server.send_message` succeeds increments
`sent_count` and appends its email to `successful_emails`; a per-recipient
exception is caught and the loop continues with the next recipient. -/
def sendLoop (env : SMTPEnv) : List UserRec → Nat × List String
  | [] => (0, [])
  | r :: rest =>
    if env.sendOk r then
      let p := sendLoop env rest
      (p.1 + 1, r.email :: p.2)
    else
      sendLoop env rest

/-- `send_email_campaign` (`src/app.py` lines 45–102).  Without credentials
(demo mode) it reports every recipient as successful.  In live mode, a
failure of connect/starttls/login — and likewise of `server.quit()`, which
sits inside the same `try` — lands in the `except` that returns `(0, [])`;
otherwise the result is the loop's accumulation. -/
def send_email_campaign (env : SMTPEnv) (subject content : String)
    (recipients : List UserRec) : Nat × List String :=
  if env.hasCreds then
    if env.setupOk then
      if env.quitOk then
        sendLoop env recipients
      else
        (0, [])
    else
      (0, [])
  else
    (recipients.length, recipients.map (fun r => r.email))

/-- The reconciliation loop of `send_campaign` (`src/app.py` lines 667–684):
every document of the pending snapshot whose email is in `successful_emails`
has its status set to `contacted`; everything else is untouched. -/
def updateUsersContacted (successful_emails : List String)
    (users : List UserRec) : List UserRec :=
  users.map fun u =>
    if u.status = "pending" ∧ u.email ∈ successful_emails then
      { u with status := "contacted" }
    else
      u

/-- `send_campaign` (`src/app.py` lines 621–705): guard on draft status,
resolve the pending set, call `send_email_campaign`, unconditionally mark the
campaign `sent` with `recipients_count = sent_count`, then update each
successfully-reached user's status; returns the new store and the flash
message. -/
def send_campaign (env : SMTPEnv) (now : Nat) (st : Store) : Store × String :=
  if st.campaign.status ≠ "draft" then
    (st, "Campaign already sent or not a draft")
  else
    let recipients := st.users.filter (fun u => u.status == "pending")
    if recipients = [] then
      (st, "No pending users to send email to")
    else
      let res := send_email_campaign env st.campaign.subject st.campaign.content recipients
      let sent_count := res.1
      let successful_emails := res.2
      let campaign2 : Campaign :=
        { st.campaign with
            status := "sent"
            sentAt := some now
            recipientsCount := sent_count }
      let users2 := updateUsersContacted successful_emails st.users
      let flash :=
        if ¬ env.hasCreds then
          "Campaign marked as sent to " ++ toString recipients.length ++ " recipients (Demo Mode)"
        else if sent_count = recipients.length then
          "Campaign sent successfully to all " ++ toString sent_count ++ " recipients"
        else if sent_count > 0 then
          "Campaign partially sent: " ++ toString sent_count ++ " of " ++
            toString recipients.length ++ " emails delivered successfully"
        else
          "Campaign failed: No emails were sent successfully"
      ({ users := users2, campaign := campaign2 }, flash)

/-- ASCII case folding of one character, the effect of Python `str.lower`
on the ASCII range (emails in this code are plain ASCII). -/
def lowerChar (c : Char) : Char :=
  if 65 ≤ c.toNat ∧ c.toNat ≤ 90 then Char.ofNat (c.toNat + 32) else c

/-- Python `str.strip()`: drop leading and trailing whitespace. -/
def pyStrip (s : String) : String :=
  ⟨((s.data.dropWhile Char.isWhitespace).reverse.dropWhile Char.isWhitespace).reverse⟩

/-- Python `str.lower()` (ASCII case folding). -/
def pyLower (s : String) : String :=
  ⟨s.data.map lowerChar⟩

/-- `save_email` (`src/app.py` lines 516–592).  The `send_now` branch counts
the pending users and stores a campaign with status `sent` and
`recipients_count` equal to that count, but performs no transport call and no
user update (the code reads `# Send email logic would go here` /
`# For now, just count`); the draft branch stores a draft.  Returns the
created campaign (if any), the unchanged user collection, and the flash. -/
def save_email (now : Nat) (action subjectForm contentForm : String)
    (users : List UserRec) : Option Campaign × List UserRec × String :=
  let subject := pyStrip subjectForm
  let content := pyStrip contentForm
  if subject = "" ∨ content = "" then
    (none, users, "Subject and content are required")
  else if action = "send_now" then
    let pending := users.filter (fun u => u.status == "pending")
    let sent_count := pending.length
    (some { subject := subject, content := content, status := "sent",
            createdAt := now, sentAt := some now, recipientsCount := sent_count },
     users,
     "Email campaign sent to " ++ toString sent_count ++ " users")
  else
    (some { subject := subject, content := content, status := "draft",
            createdAt := now, sentAt := none, recipientsCount := 0 },
     users,
     "Email campaign saved as draft")

/-- `signup` (`src/app.py` lines 174–212): normalize the email with
`.strip().lower()`, reject an empty email, reject a duplicate (the
`where('email','==',email)` query finds a document), otherwise append a new
pending record. -/
def signup (emailForm nameForm companyForm roleForm : String)
    (users : List UserRec) : List UserRec × String :=
  let email := pyLower (pyStrip emailForm)
  let name := pyStrip nameForm
  let company := pyStrip companyForm
  let role := pyStrip roleForm
  if email = "" then
    (users, "Email is required")
  else if users.any (fun u => u.email == email) then
    (users, "You are already on the waitlist!")
  else
    (users ++ [{ email := email, name := some name, company := some company,
                 role := some role, status := "pending", notes := "" }],
     "Thank you for joining our waitlist!")

/-- Fixture: a pending signup with a name. -/
def alice : UserRec :=
  { email := "a@x.com", name := some "Alice", company := none, role := none,
    status := "pending", notes := "" }

/-- Fixture: a pending signup without a name. -/
def bob : UserRec :=
  { email := "b@x.com", name := none, company := none, role := none,
    status := "pending", notes := "" }

/-- Fixture: a signup already contacted by an earlier send. -/
def carol : UserRec :=
  { email := "c@x.com", name := some "Carol", company := none, role := none,
    status := "contacted", notes := "" }

/-- Fixture: a draft campaign. -/
def campDraft : Campaign :=
  { subject := "S", content := "C", status := "draft", createdAt := 0,
    sentAt := none, recipientsCount := 0 }

/-- Fixture: live SMTP whose connect/starttls/login fails. -/
def envDown : SMTPEnv :=
  { hasCreds := true, setupOk := false, sendOk := fun _ => true, quitOk := true }

/-- Fixture: live SMTP where every per-recipient send fails. -/
def envRejectAll : SMTPEnv :=
  { hasCreds := true, setupOk := true, sendOk := fun _ => false, quitOk := true }

/-- Fixture: live SMTP that rejects exactly `b@x.com`. -/
def envRejectBob : SMTPEnv :=
  { hasCreds := true, setupOk := true, sendOk := fun u => !(u.email == "b@x.com"),
    quitOk := true }

/-- Fixture: store with two pending users and one contacted user. -/
def stABC : Store := { users := [alice, bob, carol], campaign := campDraft }

/-- Fixture: store whose only user is already contacted. -/
def stOnlyCarol : Store := { users := [carol], campaign := campDraft }

theorem sendLoop_eq_filter (env : SMTPEnv) (rs : List UserRec) :
    sendLoop env rs
      = ((rs.filter env.sendOk).length, (rs.filter env.sendOk).map (fun r => r.email)) := by
  induction rs with
  | nil => rfl
  | cons r rest ih =>
    cases h : env.sendOk r <;> simp [sendLoop, h, ih, List.filter_cons]

theorem send_campaign_campaign_of_proceed (env : SMTPEnv) (now : Nat) (st : Store)
    (hdraft : st.campaign.status = "draft")
    (hne : st.users.filter (fun u => u.status == "pending") ≠ []) :
    (send_campaign env now st).1.campaign
      = { st.campaign with
            status := "sent"
            sentAt := some now
            recipientsCount :=
              (send_email_campaign env st.campaign.subject st.campaign.content
                (st.users.filter (fun u => u.status == "pending"))).1 } := by
  have h1 : ¬ (st.campaign.status ≠ "draft") := by simp [hdraft]
  simp only [send_campaign, if_neg h1, if_neg hne]

theorem send_campaign_users_of_proceed (env : SMTPEnv) (now : Nat) (st : Store)
    (hdraft : st.campaign.status = "draft")
    (hne : st.users.filter (fun u => u.status == "pending") ≠ []) :
    (send_campaign env now st).1.users
      = updateUsersContacted
          (send_email_campaign env st.campaign.subject st.campaign.content
            (st.users.filter (fun u => u.status == "pending"))).2
          st.users := by
  have h1 : ¬ (st.campaign.status ≠ "draft") := by simp [hdraft]
  simp only [send_campaign, if_neg h1, if_neg hne]

/-- C6: in live transport mode, if the session-level setup (connect,
STARTTLS, or authenticate) fails, `send_email_campaign` returns zero
recipients reached and an empty list of successful emails for the whole
batch, regardless of the recipient list. -/
theorem session_setup_failure_returns_zero (env : SMTPEnv)
    (subject content : String) (recipients : List UserRec)
    (hc : env.hasCreds = true) (hs : env.setupOk = false) :
    send_email_campaign env subject content recipients = (0, []) := by
  simp [send_email_campaign, hc, hs]

/-- Witness for C6 at a concrete failing session and non-empty batch. -/
theorem session_setup_failure_returns_zero_witness :
    envDown.hasCreds = true ∧ envDown.setupOk = false
    ∧ send_email_campaign envDown "S" "C" [alice, bob] = (0, []) :=
  ⟨rfl, rfl, session_setup_failure_returns_zero envDown "S" "C" [alice, bob] rfl rfl⟩

/-- C7: in live transport mode with a working session, a failure while
sending to one recipient is recorded as that recipient's failure only: every
recipient before and after it is still attempted, and the returned count and
success list are exactly the successes among the rest of the batch, in
order. -/
theorem per_recipient_failure_does_not_abort_batch (env : SMTPEnv)
    (subject content : String) (xs ys : List UserRec) (r : UserRec)
    (hc : env.hasCreds = true) (hs : env.setupOk = true) (hq : env.quitOk = true)
    (hr : env.sendOk r = false) :
    send_email_campaign env subject content (xs ++ r :: ys)
      = ((xs.filter env.sendOk).length + (ys.filter env.sendOk).length,
         (xs.filter env.sendOk).map (fun u => u.email)
           ++ (ys.filter env.sendOk).map (fun u => u.email)) := by
  simp [send_email_campaign, hc, hs, hq, sendLoop_eq_filter, List.filter_append,
    List.filter_cons, hr]

/-- Witness for C7: `b@x.com` in the middle of the batch fails, `a@x.com`
before it and `c@x.com` after it both still reach the result. -/
theorem per_recipient_failure_does_not_abort_batch_witness :
    envRejectBob.hasCreds = true ∧ envRejectBob.setupOk = true
    ∧ envRejectBob.quitOk = true ∧ envRejectBob.sendOk bob = false
    ∧ send_email_campaign envRejectBob "S" "C" ([alice] ++ bob :: [carol])
        = (([alice].filter envRejectBob.sendOk).length
             + ([carol].filter envRejectBob.sendOk).length,
           ([alice].filter envRejectBob.sendOk).map (fun u => u.email)
             ++ ([carol].filter envRejectBob.sendOk).map (fun u => u.email)) :=
  ⟨rfl, rfl, rfl, by decide,
   per_recipient_failure_does_not_abort_batch envRejectBob "S" "C" [alice] [carol] bob
     rfl rfl rfl (by decide)⟩

/-- C8: dispatching a draft campaign whose resolved pending set is empty
leaves the whole store untouched (campaign document included) and produces
the "no recipients" flash, not a failed transition. -/
theorem empty_pending_leaves_store_untouched (env : SMTPEnv) (now : Nat) (st : Store)
    (hdraft : st.campaign.status = "draft")
    (hempty : st.users.filter (fun u => u.status == "pending") = []) :
    send_campaign env now st = (st, "No pending users to send email to") := by
  have h1 : ¬ (st.campaign.status ≠ "draft") := by simp [hdraft]
  simp [send_campaign, h1, hempty]

/-- Witness for C8: a store whose only user is already contacted. -/
theorem empty_pending_leaves_store_untouched_witness :
    stOnlyCarol.campaign.status = "draft"
    ∧ stOnlyCarol.users.filter (fun u => u.status == "pending") = []
    ∧ send_campaign envRejectAll 3 stOnlyCarol
        = (stOnlyCarol, "No pending users to send email to") :=
  ⟨rfl, by decide,
   empty_pending_leaves_store_untouched envRejectAll 3 stOnlyCarol rfl (by decide)⟩

/-- C2: for a dispatch that proceeds (draft campaign, non-empty pending set)
over a live, working session, the `recipients_count` written to the campaign
equals the number of resolved recipients whose individual send succeeded —
not the number of resolved recipients. -/
theorem recipients_count_eq_successful_sends (env : SMTPEnv) (now : Nat) (st : Store)
    (hdraft : st.campaign.status = "draft")
    (hne : st.users.filter (fun u => u.status == "pending") ≠ [])
    (hc : env.hasCreds = true) (hs : env.setupOk = true) (hq : env.quitOk = true) :
    (send_campaign env now st).1.campaign.recipientsCount
      = ((st.users.filter (fun u => u.status == "pending")).filter env.sendOk).length := by
  rw [send_campaign_campaign_of_proceed env now st hdraft hne]
  simp [send_email_campaign, hc, hs, hq, sendLoop_eq_filter]

/-- Witness for C2: two pending users resolved, one send fails, so the
stored count is 1, different from the resolved-set size 2. -/
theorem recipients_count_eq_successful_sends_witness :
    stABC.campaign.status = "draft"
    ∧ stABC.users.filter (fun u => u.status == "pending") ≠ []
    ∧ envRejectBob.hasCreds = true ∧ envRejectBob.setupOk = true
    ∧ envRejectBob.quitOk = true
    ∧ (send_campaign envRejectBob 5 stABC).1.campaign.recipientsCount
        = ((stABC.users.filter (fun u => u.status == "pending")).filter
            envRejectBob.sendOk).length
    ∧ (send_campaign envRejectBob 5 stABC).1.campaign.recipientsCount
        ≠ (stABC.users.filter (fun u => u.status == "pending")).length :=
  ⟨rfl, by decide, rfl, rfl, rfl,
   recipients_count_eq_successful_sends envRejectBob 5 stABC rfl (by decide) rfl rfl rfl,
   by decide⟩

/-- C3: for a dispatch that proceeds (draft campaign, non-empty pending
set), a user's record is switched to `contacted` exactly when it was pending
and the send to its email address succeeded; a pending user whose send
failed is left byte-for-byte unchanged and still appears in a subsequent
resolution of the pending set; a non-pending user is never touched. -/
theorem contacted_iff_send_success (env : SMTPEnv) (now : Nat) (st : Store)
    (hdraft : st.campaign.status = "draft")
    (hne : st.users.filter (fun u => u.status == "pending") ≠ [])
    (i : Nat) (hi : i < st.users.length)
    (hi2 : i < (send_campaign env now st).1.users.length) :
    ((st.users.get ⟨i, hi⟩).status = "pending" ∧
        (st.users.get ⟨i, hi⟩).email ∈
          (send_email_campaign env st.campaign.subject st.campaign.content
            (st.users.filter (fun u => u.status == "pending"))).2 →
      ((send_campaign env now st).1.users.get ⟨i, hi2⟩).status = "contacted")
    ∧ ((st.users.get ⟨i, hi⟩).status = "pending" ∧
        (st.users.get ⟨i, hi⟩).email ∉
          (send_email_campaign env st.campaign.subject st.campaign.content
            (st.users.filter (fun u => u.status == "pending"))).2 →
      (send_campaign env now st).1.users.get ⟨i, hi2⟩ = st.users.get ⟨i, hi⟩
      ∧ (send_campaign env now st).1.users.get ⟨i, hi2⟩
          ∈ ((send_campaign env now st).1.users).filter (fun u => u.status == "pending"))
    ∧ ((st.users.get ⟨i, hi⟩).status ≠ "pending" →
      (send_campaign env now st).1.users.get ⟨i, hi2⟩ = st.users.get ⟨i, hi⟩) := by
  have husers := send_campaign_users_of_proceed env now st hdraft hne
  set succ := (send_email_campaign env st.campaign.subject st.campaign.content
      (st.users.filter (fun u => u.status == "pending"))).2 with hsucc
  set u := st.users.get ⟨i, hi⟩ with hu
  have key : ∀ (l : List UserRec), l = updateUsersContacted succ st.users →
      ∀ (h2 : i < l.length),
      l.get ⟨i, h2⟩
        = if u.status = "pending" ∧ u.email ∈ succ
          then { u with status := "contacted" } else u := by
    intro l hl
    subst hl
    intro h2
    simp [updateUsersContacted, List.get_eq_getElem, List.getElem_map, hu]
  have hget := key _ husers.symm.symm hi2
  refine ⟨?_, ?_, ?_⟩
  · intro hcase
    rw [hget, if_pos hcase]
  · intro hcase
    have hne2 : ¬ (u.status = "pending" ∧ u.email ∈ succ) := by
      intro hc
      exact hcase.2 hc.2
    have heq : (send_campaign env now st).1.users.get ⟨i, hi2⟩ = u := by
      rw [hget, if_neg hne2]
    refine ⟨heq, ?_⟩
    rw [heq]
    rw [List.mem_filter]
    constructor
    · rw [husers]
      have hmem : u ∈ st.users := by
        rw [hu]
        exact List.get_mem st.users i hi
      have hmap := List.mem_map_of_mem
        (fun v => if v.status = "pending" ∧ v.email ∈ succ
                  then { v with status := "contacted" } else v) hmem
      unfold updateUsersContacted
      simpa [hne2] using hmap
    · simp [hcase.1]
  · intro hcase
    have hne2 : ¬ (u.status = "pending" ∧ u.email ∈ succ) := by
      intro hc
      exact hcase hc.1
    rw [hget, if_neg hne2]

/-- Witness for C3 at index 1 of `stABC` (the user `bob`, pending, whose
send over `envRejectBob` fails): all three conjuncts instantiated. -/
theorem contacted_iff_send_success_witness :
    stABC.campaign.status = "draft"
    ∧ stABC.users.filter (fun u => u.status == "pending") ≠ []
    ∧ (((stABC.users.get ⟨1, by decide⟩).status = "pending" ∧
          (stABC.users.get ⟨1, by decide⟩).email ∈
            (send_email_campaign envRejectBob stABC.campaign.subject stABC.campaign.content
              (stABC.users.filter (fun u => u.status == "pending"))).2 →
        ((send_campaign envRejectBob 5 stABC).1.users.get ⟨1, by decide⟩).status = "contacted")
      ∧ ((stABC.users.get ⟨1, by decide⟩).status = "pending" ∧
          (stABC.users.get ⟨1, by decide⟩).email ∉
            (send_email_campaign envRejectBob stABC.campaign.subject stABC.campaign.content
              (stABC.users.filter (fun u => u.status == "pending"))).2 →
        (send_campaign envRejectBob 5 stABC).1.users.get ⟨1, by decide⟩
            = stABC.users.get ⟨1, by decide⟩
        ∧ (send_campaign envRejectBob 5 stABC).1.users.get ⟨1, by decide⟩
            ∈ ((send_campaign envRejectBob 5 stABC).1.users).filter
                (fun u => u.status == "pending"))
      ∧ ((stABC.users.get ⟨1, by decide⟩).status ≠ "pending" →
        (send_campaign envRejectBob 5 stABC).1.users.get ⟨1, by decide⟩
            = stABC.users.get ⟨1, by decide⟩)) :=
  ⟨rfl, by decide,
   contacted_iff_send_success envRejectBob 5 stABC rfl (by decide) 1 (by decide) (by decide)⟩

/-- C9: a signup whose case-normalized email already exists in the store is
rejected: the store is returned unchanged (no new record, existing records
untouched) with the duplicate flash, and in particular email uniqueness
across signup records is preserved by the attempt. -/
theorem duplicate_signup_rejected (e n c r : String) (users : List UserRec)
    (hne0 : pyLower (pyStrip e) ≠ "")
    (hdup : ∃ u ∈ users, u.email = pyLower (pyStrip e)) :
    (signup e n c r users).1 = users
    ∧ (signup e n c r users).2 = "You are already on the waitlist!"
    ∧ (((signup e n c r users).1.map (fun u => u.email)).Nodup
        ↔ (users.map (fun u => u.email)).Nodup) := by
  obtain ⟨u, hu, he⟩ := hdup
  have hany : users.any (fun v => v.email == pyLower (pyStrip e)) = true := by
    rw [List.any_eq_true]
    exact ⟨u, hu, by simp [he]⟩
  have h1 : (signup e n c r users).1 = users := by
    simp [signup, hne0, hany]
  refine ⟨h1, by simp [signup, hne0, hany], by rw [h1]⟩

/-- Witness for C9: `"  A@X.com "` normalizes to `"a@x.com"`, which is
already `alice`'s email. -/
theorem duplicate_signup_rejected_witness :
    pyLower (pyStrip "  A@X.com ") ≠ ""
    ∧ (∃ u ∈ [alice], u.email = pyLower (pyStrip "  A@X.com "))
    ∧ (signup "  A@X.com " "Al" "" "" [alice]).1 = [alice]
    ∧ (signup "  A@X.com " "Al" "" "" [alice]).2 = "You are already on the waitlist!"
    ∧ ((((signup "  A@X.com " "Al" "" "" [alice]).1.map (fun u => u.email)).Nodup)
        ↔ (([alice].map (fun u => u.email)).Nodup)) := by
  have h := duplicate_signup_rejected "  A@X.com " "Al" "" "" [alice]
    (by decide) ⟨alice, by decide, by decide⟩
  exact ⟨by decide, ⟨alice, by decide, by decide⟩, h.1, h.2.1, h.2.2⟩

/-- C1 (code bug exhibit): a dispatch of a draft campaign with one pending
recipient over a live session in which every send fails writes status
`sent` with `recipients_count = 0` and a sent time — while flashing
"Campaign failed" — instead of transitioning to `failed`; no user record is
modified. -/
theorem zero_success_dispatch_marks_campaign_sent :
    (send_campaign envRejectAll 5 { users := [alice], campaign := campDraft }).1.campaign.status
        = "sent"
    ∧ (send_campaign envRejectAll 5
        { users := [alice], campaign := campDraft }).1.campaign.recipientsCount = 0
    ∧ (send_campaign envRejectAll 5
        { users := [alice], campaign := campDraft }).1.campaign.sentAt = some 5
    ∧ (send_campaign envRejectAll 5 { users := [alice], campaign := campDraft }).1.users
        = [alice]
    ∧ (send_campaign envRejectAll 5 { users := [alice], campaign := campDraft }).2
        = "Campaign failed: No emails were sent successfully" := by
  decide

/-- C4 (code bug exhibit): "send now" on a new campaign stores a campaign
with status `sent` and `recipients_count = 2`, yet performs no transport
call (`save_email` never consults any `SMTPEnv`) and leaves both pending
users' records — including their `pending` status — untouched. -/
theorem save_email_send_now_sends_nothing :
    (save_email 7 "send_now" "Subject" "Content" [alice, bob]).2.1 = [alice, bob]
    ∧ (save_email 7 "send_now" "Subject" "Content" [alice, bob]).1
        = some { subject := "Subject", content := "Content", status := "sent",
                 createdAt := 7, sentAt := some 7, recipientsCount := 2 }
    ∧ alice.status = "pending" ∧ bob.status = "pending" := by
  decide

/-- C5 counterexample: for a recipient with no name attribute, rendering a
template consisting of one `name` placeholder yields `"Hi there!"`, not the
empty-substitution `"Hi !"` the claim asserts. -/
theorem absent_name_substitutes_there_not_empty :
    personalized_content "Hi \x7b\x7bname\x7d\x7d!".toList bob = "Hi there!".toList
    ∧ personalized_content "Hi \x7b\x7bname\x7d\x7d!".toList bob ≠ "Hi !".toList := by
  decide

/-- C5 amended: when the name attribute is absent, rendering behaves exactly
as if the name were the string `"there"` (not the empty string); absent
company and role behave as the empty string; concretely, every occurrence of
the `name` placeholder becomes `"there"` and the company/role placeholders
vanish. -/
theorem absent_name_defaults_to_there (t : List Char) (e s n : String) :
    personalized_content t
        { email := e, name := none, company := none, role := none, status := s, notes := n }
      = personalized_content t
          { email := e, name := some "there", company := some "", role := some "",
            status := s, notes := n }
    ∧ personalized_content
        "\x7b\x7bname\x7d\x7d-\x7b\x7bname\x7d\x7d \x7b\x7bcompany\x7d\x7d\x7b\x7brole\x7d\x7d".toList
        bob
      = "there-there ".toList :=
  ⟨rfl, by decide⟩

/-- C10: the four placeholder replacements are applied sequentially to the
evolving string: a recipient whose name attribute is itself the `email`
placeholder token ends up with their email value where the name was
substituted. -/
theorem placeholder_substitution_is_sequential :
    personalized_content "Hello \x7b\x7bname\x7d\x7d!".toList
        { email := "a@x.com", name := some "\x7b\x7bemail\x7d\x7d", company := none,
          role := none, status := "pending", notes := "" }
      = "Hello a@x.com!".toList := by
  decide
